import Mathlib

/-!
Shallow embedding of `_lovely_tensors_hook.py` from pallgeuer/lovely-tensors.

The file is a conditional runtime-patching shim: gated on the
`LOVELY_TENSORS` environment variable, it either patches an already-loaded
`torch` module directly or installs a one-shot meta-path finder that wraps
the loader of `torch` so the patch runs right after the module executes.

Model of the relevant interpreter state:
  * `sys.modules` is an association list from names to entries; an entry is
    either a genuine module object (`SysEntry.module`) or some non-module
    value (`SysEntry.nonModule`), mirroring the `isinstance(..., ModuleType)`
    guards in the source.
  * a module object maps attribute names to attribute values (here only the
    class objects reachable from the probes matter, modelled by `PyType`,
    itself an attribute-name set, enough to interpret `hasattr`).
  * `sys.meta_path` is a list of `Finder`s; this system's `_TorchFinder`
    instances are `Finder.torch id`, every other finder is `Finder.other id`.
  * `sys.stderr` is a list of written strings.

External collaborators (`lovely_tensors.monkey_patch`, the real loader of
`torch`, `importlib.util.find_spec`'s walk over the remaining finders) are
parameters of the corresponding definitions: a patch routine or an exec
routine is a function from interpreter state to an outcome that is either a
normal return or a raised exception, both carrying the successor state.
-/

/-- A Python class object, abstracted to the set of attribute names it
exposes; `hasattr` on it is membership. -/
structure PyType where
  attrs : List String
deriving DecidableEq, Repr

def PyType.hasattr (T : PyType) (name : String) : Bool :=
  T.attrs.contains name

/-- A Python module object: a map from attribute names to class objects
(the only module attributes the hook ever reads are class-valued, namely
`torch.Tensor`). -/
structure PyModule where
  attrs : List (String × PyType)
deriving DecidableEq, Repr

/-- `getattr(mod, name, None)`: the first binding of `name`, if any. -/
def PyModule.getattr (m : PyModule) (name : String) : Option PyType :=
  (m.attrs.find? (fun p => p.1 == name)).map (fun p => p.2)

/-- An entry of `sys.modules`: a genuine module object or anything else
(e.g. a sentinel), which the `isinstance(..., ModuleType)` checks reject. -/
inductive SysEntry where
  | module (m : PyModule)
  | nonModule
deriving DecidableEq, Repr

/-- A loader object: either a real loader (opaque, identified by an id) or
a `_WrappedTorchLoader` holding the loader it decorates. -/
inductive Loader where
  | real (id : Nat)
  | wrapped (inner : Loader)
deriving DecidableEq, Repr

/-- A module spec as far as the hook manipulates it: its name and its
(optional) loader; all other fields ride along unchanged and are elided. -/
structure ModuleSpec where
  name : String
  loader : Option Loader
deriving DecidableEq, Repr

/-- A meta-path finder: an instance of this system's `_TorchFinder`
(identified by `id`) or any other finder object. -/
inductive Finder where
  | torch (id : Nat)
  | other (id : Nat)
deriving DecidableEq, Repr

/-- `isinstance(f, _TorchFinder)`. -/
def Finder.isTorch : Finder → Bool
  | .torch _ => true
  | .other _ => false

/-- The interpreter state the hook reads and writes: `sys.modules`,
`sys.meta_path` and `sys.stderr`. -/
structure State where
  modules : List (String × SysEntry)
  metaPath : List Finder
  stderr : List String
deriving DecidableEq, Repr

/-- `sys.modules.get(name)`. -/
def State.getModule (s : State) (name : String) : Option SysEntry :=
  (s.modules.find? (fun p => p.1 == name)).map (fun p => p.2)

/-- `torch_loaded()`: `isinstance(sys.modules.get("torch"), ModuleType)`. -/
def torch_loaded (s : State) : Bool :=
  match s.getModule "torch" with
  | some (.module _) => true
  | _ => false

/-- `torch_patched()`: the `torch` entry is a genuine module, it has a
`Tensor` attribute, and that class has attribute `rgb`. -/
def torch_patched (s : State) : Bool :=
  match s.getModule "torch" with
  | some (.module m) =>
    match m.getattr "Tensor" with
    | some T => T.hasattr "rgb"
    | none => false
  | _ => false

/-- Outcome of running a piece of Python code: normal return or a raised
exception (modelled by its message), each with the successor state. -/
inductive PyResult where
  | ok (s : State)
  | exn (e : String) (s : State)
deriving DecidableEq, Repr

/-- The state carried by an outcome. -/
def PyResult.state : PyResult → State
  | .ok s => s
  | .exn _ s => s

/-- An external routine invoked by the hook (`lovely_tensors.monkey_patch`,
or a real loader's `exec_module`): state in, outcome out. -/
def Routine : Type := State → PyResult

/-- The `ERROR_MESSAGE` literal of `_after_import_torch`, up to the `{}`
placeholder. -/
def ERROR_MESSAGE_head : String :=
  "        Error: lovely_tensors.monkey_patch() failed with:\n\n        "

/-- The `ERROR_MESSAGE` literal of `_after_import_torch`, after the `{}`
placeholder. -/
def ERROR_MESSAGE_tail : String :=
  "\n\n        If you uninstalled lovely_tensors, you should delete any \x27_lovely_tensors_hook.pth\x27\n        file on your system and unset your \x27LOVELY_TENSORS\x27 environment variable.\n        "

/-- `ERROR_MESSAGE.format(e)`. -/
def ERROR_MESSAGE_fmt (e : String) : String :=
  ERROR_MESSAGE_head ++ e ++ ERROR_MESSAGE_tail

/-- `_after_import_torch()`, parameterised by the external patch routine.
Besides the outcome it reports how many times the patch routine was
invoked (an observation, not state). If `torch_patched()` holds it returns
at once; otherwise it runs the patch routine, and on an exception prints
`ERROR_MESSAGE.format(e)` to stderr and re-raises. -/
def _after_import_torch (patch : Routine) (s : State) : PyResult × Nat :=
  if torch_patched s then (.ok s, 0)
  else
    match patch s with
    | .ok s1 => (.ok s1, 1)
    | .exn e s1 =>
      (.exn e { s1 with stderr := s1.stderr ++ [ERROR_MESSAGE_fmt e] }, 1)

/-- `_WrappedTorchLoader.exec_module`, parameterised by the wrapped real
loader's `exec_module` and by the patch routine. Reports how many times
`_after_import_torch` was invoked. Runs the real execution first; only on
its normal return does it invoke `_after_import_torch`. -/
def exec_module (realExec : Routine) (patch : Routine) (s : State) :
    PyResult × Nat :=
  match realExec s with
  | .ok s1 => ((_after_import_torch patch s1).1, 1)
  | .exn e s1 => (.exn e s1, 0)

/-- `list.remove(x)` wrapped in `try ... except ValueError: pass`: drop the
first occurrence of `x`, and leave the list unchanged when `x` is absent. -/
def removeFinder : List Finder → Finder → List Finder
  | [], _ => []
  | f :: fs, g => if f = g then fs else f :: removeFinder fs g

/-- `_TorchFinder.find_spec(fullname, ...)` for the instance `self`.
`resolve` stands for `importlib.util.find_spec`: the delegated resolution,
which consults the meta path current at the time of the call (hence it is
passed the post-removal meta path). Returns the spec (or `None`) and the
successor state. -/
def find_spec (self : Finder)
    (resolve : List Finder → String → Option ModuleSpec)
    (fullname : String) (s : State) : Option ModuleSpec × State :=
  if fullname ≠ "torch" then (none, s)
  else
    let mp := removeFinder s.metaPath self
    let s1 : State := { s with metaPath := mp }
    match resolve mp fullname with
    | none => (none, s1)
    | some real_spec =>
      match real_spec.loader with
      | none => (some real_spec, s1)
      | some L => (some { real_spec with loader := some (.wrapped L) }, s1)

/-- Drop leading whitespace characters from a character list. -/
def dropLeadingWs : List Char → List Char
  | [] => []
  | c :: cs => if c.isWhitespace then dropLeadingWs cs else c :: cs

/-- Python's `str.strip()` (no argument): remove leading and trailing
whitespace. -/
def strStrip (s : String) : String :=
  String.mk ((dropLeadingWs (dropLeadingWs s.data).reverse).reverse)

/-- Python's `str.lower()`, restricted to the ASCII case mapping (the only
one the truthy comparisons can exercise). -/
def strLower (s : String) : String :=
  String.mk (s.data.map Char.toLower)

/-- The membership test of the module-level guard:
`os.environ.get("LOVELY_TENSORS", "").strip().lower() in {"1", "true", "yes"}`.
`env` is the raw environment value (`none` when unset). -/
def lovelyEnabled (env : Option String) : Bool :=
  let v := strLower (strStrip (env.getD ""))
  v == "1" || v == "true" || v == "yes"

/-- The module-level startup code (lines 79-83), parameterised by the patch
routine and the id of the freshly constructed `_TorchFinder()`. Reports how
many times `_after_import_torch` was invoked. -/
def startup (patch : Routine) (newId : Nat) (env : Option String)
    (s : State) : PyResult × Nat :=
  if lovelyEnabled env then
    if torch_loaded s then
      ((_after_import_torch patch s).1, 1)
    else if (s.metaPath.any Finder.isTorch) = false then
      (.ok { s with metaPath := Finder.torch newId :: s.metaPath }, 0)
    else (.ok s, 0)
  else (.ok s, 0)

/-- Number of `_TorchFinder` instances in a meta path. -/
def countTorch (l : List Finder) : Nat :=
  (l.filter Finder.isTorch).length

/-! ### Helper lemmas about `removeFinder` and `countTorch` -/

theorem removeFinder_of_not_mem {l : List Finder} {f : Finder} (h : f ∉ l) :
    removeFinder l f = l := by
  induction l with
  | nil => rfl
  | cons g gs ih =>
    simp only [List.mem_cons, not_or] at h
    simp [removeFinder, Ne.symm h.1, ih h.2]

theorem not_mem_removeFinder {l : List Finder} {f : Finder}
    (h : l.count f ≤ 1) : f ∉ removeFinder l f := by
  induction l with
  | nil => simp [removeFinder]
  | cons g gs ih =>
    by_cases hg : g = f
    · subst hg
      rw [List.count_cons_self] at h
      have h0 : gs.count g = 0 := by omega
      simp only [removeFinder, if_pos rfl]
      exact (List.count_eq_zero).1 h0
    · rw [List.count_cons_of_ne (fun he => hg he.symm)] at h
      simp only [removeFinder, if_neg hg, List.mem_cons, not_or]
      exact ⟨fun he => hg he.symm, ih h⟩

theorem countTorch_cons (g : Finder) (l : List Finder) :
    countTorch (g :: l) = countTorch l + if g.isTorch then 1 else 0 := by
  cases hb : g.isTorch <;> simp [countTorch, List.filter_cons, hb]

theorem removeFinder_sublist (l : List Finder) (f : Finder) :
    List.Sublist (removeFinder l f) l := by
  induction l with
  | nil => exact List.Sublist.refl _
  | cons g gs ih =>
    by_cases hg : g = f
    · rw [removeFinder, if_pos hg]
      exact (List.Sublist.refl gs).cons g
    · rw [removeFinder, if_neg hg]
      exact ih.cons₂ g

theorem countTorch_removeFinder_le (l : List Finder) (f : Finder) :
    countTorch (removeFinder l f) ≤ countTorch l :=
  ((removeFinder_sublist l f).filter Finder.isTorch).length_le

theorem countTorch_removeFinder_lt {l : List Finder} {f : Finder}
    (hf : f.isTorch = true) (hm : f ∈ l) :
    countTorch (removeFinder l f) < countTorch l := by
  induction l with
  | nil => cases hm
  | cons g gs ih =>
    by_cases hg : g = f
    · subst hg
      rw [removeFinder, if_pos rfl, countTorch_cons, if_pos hf]
      have := countTorch_removeFinder_le gs g
      omega
    · rcases List.mem_cons.1 hm with he | hm2
      · exact absurd he.symm hg
      · have hlt := ih hm2
        rw [removeFinder, if_neg hg, countTorch_cons, countTorch_cons]
        omega

theorem any_isTorch_false_iff {l : List Finder} :
    (l.any Finder.isTorch = false) ↔ countTorch l = 0 := by
  induction l with
  | nil => simp [countTorch]
  | cons g gs ih =>
    cases hb : g.isTorch <;>
      simp [List.any_cons, hb, countTorch_cons, ih]

/-! ### Concrete states used by the witnesses -/

/-- A `torch.Tensor` class that already carries the `rgb` marker. -/
def patchedTensor : PyType := { attrs := ["rgb"] }

/-- A `torch.Tensor` class without the `rgb` marker. -/
def plainTensor : PyType := { attrs := [] }

/-- A `torch` module whose `Tensor` class is already patched. -/
def patchedTorch : PyModule := { attrs := [("Tensor", patchedTensor)] }

/-- A `torch` module whose `Tensor` class is not patched. -/
def plainTorch : PyModule := { attrs := [("Tensor", plainTensor)] }

/-- State with a patched `torch` loaded. -/
def statePatched : State :=
  { modules := [("torch", .module patchedTorch)], metaPath := [], stderr := [] }

/-- State with an unpatched `torch` loaded. -/
def statePlain : State :=
  { modules := [("torch", .module plainTorch)], metaPath := [], stderr := [] }

/-- State with nothing loaded and an empty meta path. -/
def stateEmpty : State :=
  { modules := [], metaPath := [], stderr := [] }

/-- A well-behaved patch routine: installs the patched `torch` module entry
and touches nothing else. -/
def patchFn : Routine := fun t =>
  .ok { t with modules := [("torch", .module patchedTorch)] }

/-- A patch routine that always raises without touching the state. -/
def patchFailFn : Routine := fun t => .exn "boom" t

/-- A real-loader execution that succeeds, leaving an unpatched `torch`. -/
def execOkFn : Routine := fun t =>
  .ok { t with modules := [("torch", .module plainTorch)] }

/-- A real-loader execution that raises. -/
def execFailFn : Routine := fun t => .exn "exec failed" t

/-! ### Claim theorems -/

/-- Claim C7: `torch_patched()` returns true if and only if the module
registry holds a genuine module object under `"torch"`, that module exposes
a `Tensor` attribute, and that class exposes the `rgb` marker attribute; in
every other case it returns false. (It never raises: it is a total
`Bool`-valued function.) -/
theorem torch_patched_characterisation (s : State) :
    torch_patched s = true ↔
      ∃ m T, s.getModule "torch" = some (.module m) ∧
        m.getattr "Tensor" = some T ∧ T.hasattr "rgb" = true := by
  unfold torch_patched
  cases hm : s.getModule "torch" with
  | none => simp
  | some ent =>
    cases ent with
    | nonModule => simp
    | module m =>
      cases hT : m.getattr "Tensor" with
      | none => simp [hT]
      | some T => simp [hT]

/-- Claim C4: `_after_import_torch` is idempotent. If `torch_patched()` is
already true it returns at once without invoking the external patch routine
(invocation count 0); and starting from an unpatched state, when the patch
routine succeeds and establishes the marker, two successive invocations of
the trigger invoke the patch routine exactly once in total. -/
theorem after_import_torch_idempotent (patch : Routine) (s s1 : State)
    (h0 : torch_patched s = false) (h1 : patch s = .ok s1)
    (h2 : torch_patched s1 = true) :
    (∀ t, torch_patched t = true → _after_import_torch patch t = (.ok t, 0)) ∧
    _after_import_torch patch s = (.ok s1, 1) ∧
    (_after_import_torch patch s).2 + (_after_import_torch patch s1).2 = 1 := by
  have hfirst : _after_import_torch patch s = (.ok s1, 1) := by
    simp [_after_import_torch, h0, h1]
  have hsecond : _after_import_torch patch s1 = (.ok s1, 0) := by
    simp [_after_import_torch, h2]
  exact ⟨fun t ht => by simp [_after_import_torch, ht], hfirst,
    by simp [hfirst, hsecond]⟩

/-- Concrete instantiation of `after_import_torch_idempotent`. -/
theorem after_import_torch_idempotent_witness :
    (∀ t, torch_patched t = true →
      _after_import_torch patchFn t = (.ok t, 0)) ∧
    _after_import_torch patchFn statePlain = (.ok statePatched, 1) ∧
    (_after_import_torch patchFn statePlain).2 +
      (_after_import_torch patchFn statePatched).2 = 1 :=
  after_import_torch_idempotent patchFn statePlain statePatched
    (by decide) (by decide) (by decide)

set_option maxRecDepth 16384 in
/-- Claim C5: when the external patch routine raises `e` during
`_after_import_torch`, exactly one diagnostic line is appended to the error
stream — the formatted `ERROR_MESSAGE`, which names the failure `e` and
contains the remediation steps (the hook-file name and the environment
variable name) — and the same exception `e` is then re-raised. -/
theorem after_import_torch_error_path (patch : Routine) (s s1 : State)
    (e : String) (h0 : torch_patched s = false) (h1 : patch s = .exn e s1) :
    _after_import_torch patch s =
      (.exn e { s1 with stderr := s1.stderr ++ [ERROR_MESSAGE_fmt e] }, 1) ∧
    e.data <:+: (ERROR_MESSAGE_fmt e).data ∧
    "_lovely_tensors_hook.pth".data <:+: (ERROR_MESSAGE_fmt e).data ∧
    "LOVELY_TENSORS".data <:+: (ERROR_MESSAGE_fmt e).data := by
  have hdata : (ERROR_MESSAGE_fmt e).data =
      (ERROR_MESSAGE_head.data ++ e.data) ++ ERROR_MESSAGE_tail.data := by
    simp [ERROR_MESSAGE_fmt, String.data_append]
  have htail : ERROR_MESSAGE_tail.data <:+: (ERROR_MESSAGE_fmt e).data := by
    rw [hdata]
    exact (List.suffix_append _ _).isInfix
  refine ⟨by simp [_after_import_torch, h0, h1], ?_, ?_, ?_⟩
  · exact ⟨ERROR_MESSAGE_head.data, ERROR_MESSAGE_tail.data, hdata.symm⟩
  · exact List.IsInfix.trans (by decide) htail
  · exact List.IsInfix.trans (by decide) htail

/-- Concrete instantiation of `after_import_torch_error_path`. -/
theorem after_import_torch_error_path_witness :
    _after_import_torch patchFailFn statePlain =
      (.exn "boom" { statePlain with
        stderr := statePlain.stderr ++ [ERROR_MESSAGE_fmt "boom"] }, 1) ∧
    "boom".data <:+: (ERROR_MESSAGE_fmt "boom").data ∧
    "_lovely_tensors_hook.pth".data <:+: (ERROR_MESSAGE_fmt "boom").data ∧
    "LOVELY_TENSORS".data <:+: (ERROR_MESSAGE_fmt "boom").data :=
  after_import_torch_error_path patchFailFn statePlain statePlain "boom"
    (by decide) rfl

/-- Claim C9: if the external patch routine raises (and, per the spec's
model of the routine as the sole marker-adder, a failed run has not
established the marker), then after `_after_import_torch` re-raises, the
resulting state is still unpatched: the diagnostic write to the error
stream does not change the observable patched-state. -/
theorem failed_patch_leaves_unpatched (patch : Routine) (s s1 : State)
    (e : String) (h0 : torch_patched s = false) (h1 : patch s = .exn e s1)
    (h2 : torch_patched s1 = false) :
    ∃ s2, (_after_import_torch patch s).1 = .exn e s2 ∧
      torch_patched s2 = false := by
  refine ⟨{ s1 with stderr := s1.stderr ++ [ERROR_MESSAGE_fmt e] }, ?_, ?_⟩
  · simp [_after_import_torch, h0, h1]
  · exact h2

/-- Concrete instantiation of `failed_patch_leaves_unpatched`. -/
theorem failed_patch_leaves_unpatched_witness :
    ∃ s2, (_after_import_torch patchFailFn statePlain).1 = .exn "boom" s2 ∧
      torch_patched s2 = false :=
  failed_patch_leaves_unpatched patchFailFn statePlain statePlain "boom"
    (by decide) rfl (by decide)

/-- Claim C1: `_WrappedTorchLoader.exec_module` first delegates the whole
execution to the real loader; only when that execution returns normally is
the patch trigger invoked (exactly once, on the post-execution state); when
the real execution raises, the exception propagates and the trigger is
never invoked (count 0). -/
theorem exec_module_trigger_after_exec (realExec patch : Routine)
    (s : State) :
    (∀ e s1, realExec s = .exn e s1 →
      exec_module realExec patch s = (.exn e s1, 0)) ∧
    (∀ s1, realExec s = .ok s1 →
      exec_module realExec patch s = ((_after_import_torch patch s1).1, 1)) := by
  constructor
  · intro e s1 h
    simp [exec_module, h]
  · intro s1 h
    simp [exec_module, h]

/-- Concrete instantiation of `exec_module_trigger_after_exec`. -/
theorem exec_module_trigger_after_exec_witness :
    exec_module execFailFn patchFn stateEmpty =
      (.exn "exec failed" stateEmpty, 0) ∧
    exec_module execOkFn patchFn stateEmpty =
      ((_after_import_torch patchFn statePlain).1, 1) :=
  ⟨(exec_module_trigger_after_exec execFailFn patchFn stateEmpty).1
      "exec failed" stateEmpty rfl,
   (exec_module_trigger_after_exec execOkFn patchFn stateEmpty).2
      statePlain rfl⟩

/-- On a `"torch"` lookup, whatever the delegated resolution returns, the
successor state is the input state with `self` removed from the meta path. -/
theorem find_spec_state_eq (self : Finder)
    (resolve : List Finder → String → Option ModuleSpec) (s : State) :
    (find_spec self resolve "torch" s).2 =
      { s with metaPath := removeFinder s.metaPath self } := by
  cases hr : resolve (removeFinder s.metaPath self) "torch" with
  | none => simp [find_spec, hr]
  | some spec =>
    cases hl : spec.loader with
    | none => simp [find_spec, hr, hl]
    | some L => simp [find_spec, hr, hl]

/-- A delegated resolution that finds nothing. -/
def resolveNone : List Finder → String → Option ModuleSpec :=
  fun _ _ => none

/-- A spec for `torch` with no loader. -/
def specNoLoader : ModuleSpec := { name := "torch", loader := none }

/-- A spec for `torch` with a real loader. -/
def specWithLoader : ModuleSpec := { name := "torch", loader := some (.real 7) }

/-- A delegated resolution returning a loaderless spec. -/
def resolveNoLoader : List Finder → String → Option ModuleSpec :=
  fun _ _ => some specNoLoader

/-- A delegated resolution returning a spec with a real loader. -/
def resolveWithLoader : List Finder → String → Option ModuleSpec :=
  fun _ _ => some specWithLoader

/-- A delegated resolution that finds nothing for `torch` but something for
every other name (agrees with `resolveNone` at `"torch"`). -/
def resolveOnlyOthers : List Finder → String → Option ModuleSpec :=
  fun _ n => if n = "torch" then none else some specNoLoader

/-- A state whose meta path holds this system's finder and one other. -/
def stateWithFinder : State :=
  { modules := [], metaPath := [Finder.torch 0, Finder.other 1], stderr := [] }

/-- Claim C3: `_TorchFinder.find_spec` on a non-`"torch"` name defers
(returns `None`) and leaves the whole state — in particular the meta path —
unchanged; on `"torch"` it removes itself from the meta path before
returning (tolerating silently the case where it is already absent), so
that afterwards (the finder occurring at most once beforehand) it is no
longer present. -/
theorem find_spec_self_removal (self : Finder)
    (resolve : List Finder → String → Option ModuleSpec)
    (fullname : String) (s : State)
    (hcount : s.metaPath.count self ≤ 1) :
    (fullname ≠ "torch" → find_spec self resolve fullname s = (none, s)) ∧
    (fullname = "torch" →
      (find_spec self resolve fullname s).2.metaPath =
        removeFinder s.metaPath self ∧
      self ∉ (find_spec self resolve fullname s).2.metaPath ∧
      (self ∉ s.metaPath →
        (find_spec self resolve fullname s).2.metaPath = s.metaPath)) := by
  refine ⟨fun h => by simp [find_spec, h], fun h => ?_⟩
  subst h
  have hmp : (find_spec self resolve "torch" s).2.metaPath =
      removeFinder s.metaPath self := by
    rw [find_spec_state_eq]
  refine ⟨hmp, ?_, fun habs => ?_⟩
  · rw [hmp]
    exact not_mem_removeFinder hcount
  · rw [hmp, removeFinder_of_not_mem habs]

/-- Concrete instantiation of `find_spec_self_removal`. -/
theorem find_spec_self_removal_witness :
    find_spec (Finder.torch 0) resolveNone "numpy" stateWithFinder =
      (none, stateWithFinder) ∧
    (find_spec (Finder.torch 0) resolveNone "torch"
        stateWithFinder).2.metaPath =
      removeFinder stateWithFinder.metaPath (Finder.torch 0) ∧
    Finder.torch 0 ∉
      (find_spec (Finder.torch 0) resolveNone "torch"
        stateWithFinder).2.metaPath :=
  ⟨(find_spec_self_removal (Finder.torch 0) resolveNone "numpy"
      stateWithFinder (by decide)).1 (by decide),
   ((find_spec_self_removal (Finder.torch 0) resolveNone "torch"
      stateWithFinder (by decide)).2 rfl).1,
   ((find_spec_self_removal (Finder.torch 0) resolveNone "torch"
      stateWithFinder (by decide)).2 rfl).2.1⟩

/-- Claim C6: on a `"torch"` lookup, if the delegated resolution yields no
spec, `find_spec` returns `None`; if it yields a spec with no loader, that
spec is returned unchanged; otherwise the returned spec is the underlying
one (same name) with its loader replaced by a wrapping loader holding the
original loader. -/
theorem find_spec_wrapping (self : Finder)
    (resolve : List Finder → String → Option ModuleSpec) (s : State) :
    (resolve (removeFinder s.metaPath self) "torch" = none →
      (find_spec self resolve "torch" s).1 = none) ∧
    (∀ spec, resolve (removeFinder s.metaPath self) "torch" = some spec →
      spec.loader = none →
      (find_spec self resolve "torch" s).1 = some spec) ∧
    (∀ spec L, resolve (removeFinder s.metaPath self) "torch" = some spec →
      spec.loader = some L →
      (find_spec self resolve "torch" s).1 =
        some { name := spec.name, loader := some (Loader.wrapped L) }) := by
  refine ⟨fun hr => by simp [find_spec, hr],
    fun spec hr hl => by simp [find_spec, hr, hl],
    fun spec L hr hl => by simp [find_spec, hr, hl]⟩

/-- Concrete instantiation of `find_spec_wrapping`. -/
theorem find_spec_wrapping_witness :
    (find_spec (Finder.torch 0) resolveNone "torch" stateWithFinder).1 =
      none ∧
    (find_spec (Finder.torch 0) resolveNoLoader "torch"
        stateWithFinder).1 = some specNoLoader ∧
    (find_spec (Finder.torch 0) resolveWithLoader "torch"
        stateWithFinder).1 =
      some { name := specWithLoader.name,
             loader := some (Loader.wrapped (Loader.real 7)) } :=
  ⟨(find_spec_wrapping (Finder.torch 0) resolveNone stateWithFinder).1 rfl,
   (find_spec_wrapping (Finder.torch 0) resolveNoLoader
      stateWithFinder).2.1 specNoLoader rfl rfl,
   (find_spec_wrapping (Finder.torch 0) resolveWithLoader
      stateWithFinder).2.2 specWithLoader (Loader.real 7) rfl rfl⟩

/-- Claim C10: in a `"torch"` lookup, the self-removal happens strictly
before the delegated resolution: the outcome of `find_spec` depends on the
delegated resolver only through its value on the post-removal meta path
(first conjunct, an extensionality statement); on that meta path the firing
finder no longer occurs (second conjunct, given it occurred at most once);
and firing strictly decreases the number of `_TorchFinder` instances in the
meta path, a decreasing measure that rules out unbounded re-entry (third
conjunct). -/
theorem find_spec_removal_before_delegation (self : Finder)
    (resolve1 resolve2 : List Finder → String → Option ModuleSpec)
    (s : State) :
    (resolve1 (removeFinder s.metaPath self) "torch" =
        resolve2 (removeFinder s.metaPath self) "torch" →
      find_spec self resolve1 "torch" s =
        find_spec self resolve2 "torch" s) ∧
    (s.metaPath.count self ≤ 1 → self ∉ removeFinder s.metaPath self) ∧
    (self.isTorch = true → self ∈ s.metaPath →
      countTorch (removeFinder s.metaPath self) < countTorch s.metaPath) := by
  refine ⟨fun h => ?_, fun hc => not_mem_removeFinder hc,
    fun hf hm => countTorch_removeFinder_lt hf hm⟩
  simp only [find_spec, h]

/-- Concrete instantiation of `find_spec_removal_before_delegation`. -/
theorem find_spec_removal_before_delegation_witness :
    find_spec (Finder.torch 0) resolveNone "torch" stateWithFinder =
      find_spec (Finder.torch 0) resolveOnlyOthers "torch" stateWithFinder ∧
    Finder.torch 0 ∉ removeFinder stateWithFinder.metaPath (Finder.torch 0) ∧
    countTorch (removeFinder stateWithFinder.metaPath (Finder.torch 0)) <
      countTorch stateWithFinder.metaPath :=
  ⟨(find_spec_removal_before_delegation (Finder.torch 0) resolveNone
      resolveOnlyOthers stateWithFinder).1 rfl,
   (find_spec_removal_before_delegation (Finder.torch 0) resolveNone
      resolveOnlyOthers stateWithFinder).2.1 (by decide),
   (find_spec_removal_before_delegation (Finder.torch 0) resolveNone
      resolveOnlyOthers stateWithFinder).2.2 rfl (by decide)⟩

/-- Claim C2: the module-level startup code acts — invokes the patch
trigger or installs the finder — exactly when the environment value,
whitespace-stripped and lowercased, is one of `1`, `true`, `yes`. In a
startup state (no instance of this system's finder present yet): the gate
condition is that membership test; when it is false the state is returned
untouched and the trigger is never invoked; when it is true, the trigger is
invoked if `torch` is loaded, and otherwise the finder is inserted at the
front of the meta path. -/
theorem startup_acts_iff_enabled (patch : Routine) (newId : Nat)
    (env : Option String) (s : State)
    (hno : (s.metaPath.any Finder.isTorch) = false) :
    (lovelyEnabled env = true ↔
      (strLower (strStrip (env.getD "")) = "1" ∨
       strLower (strStrip (env.getD "")) = "true" ∨
       strLower (strStrip (env.getD "")) = "yes")) ∧
    (lovelyEnabled env = false → startup patch newId env s = (.ok s, 0)) ∧
    (lovelyEnabled env = true →
      (torch_loaded s = true → (startup patch newId env s).2 = 1) ∧
      (torch_loaded s = false →
        startup patch newId env s =
          (.ok { s with metaPath := Finder.torch newId :: s.metaPath },
            0))) := by
  refine ⟨?_, fun hd => by simp [startup, hd], fun he =>
    ⟨fun hl => by simp [startup, he, hl],
     fun hl => by simp [startup, he, hl, hno]⟩⟩
  simp [lovelyEnabled, or_assoc]

/-- Concrete instantiation of `startup_acts_iff_enabled`. -/
theorem startup_acts_iff_enabled_witness :
    (lovelyEnabled (some " True ") = true ↔
      (strLower (strStrip ((some " True ").getD "")) = "1" ∨
       strLower (strStrip ((some " True ").getD "")) = "true" ∨
       strLower (strStrip ((some " True ").getD "")) = "yes")) ∧
    startup patchFn 5 (some "0") stateEmpty = (.ok stateEmpty, 0) ∧
    (startup patchFn 5 (some " True ") statePatched).2 = 1 ∧
    startup patchFn 5 (some "yes") stateEmpty =
      (.ok { stateEmpty with
        metaPath := Finder.torch 5 :: stateEmpty.metaPath }, 0) :=
  ⟨(startup_acts_iff_enabled patchFn 5 (some " True ") statePatched
      (by decide)).1,
   (startup_acts_iff_enabled patchFn 5 (some "0") stateEmpty
      (by decide)).2.1 (by decide),
   ((startup_acts_iff_enabled patchFn 5 (some " True ") statePatched
      (by decide)).2.2 (by decide)).1 (by decide),
   ((startup_acts_iff_enabled patchFn 5 (some "yes") stateEmpty
      (by decide)).2.2 (by decide)).2 (by decide)⟩

/-- If the patch routine never changes the meta path, neither does the
patch trigger. -/
theorem after_import_torch_metaPath (patch : Routine) (s : State)
    (hpatch : ∀ t, ((patch t).state).metaPath = t.metaPath) :
    ((_after_import_torch patch s).1).state.metaPath = s.metaPath := by
  have hps := hpatch s
  by_cases hp : torch_patched s
  · simp [_after_import_torch, hp, PyResult.state]
  · cases hq : patch s with
    | ok s1 =>
      rw [hq] at hps
      simpa [_after_import_torch, hp, hq, PyResult.state] using hps
    | exn e s1 =>
      rw [hq] at hps
      simpa [_after_import_torch, hp, hq, PyResult.state] using hps

/-- Claim C8: at most one `_TorchFinder` instance is ever in the meta path.
Assuming the external patch routine leaves the meta path alone and at most
one instance is present beforehand: after the startup code at most one is
present; the startup code changes the meta path only by inserting one fresh
finder, and does so only when no instance was present and `torch` was not
loaded; and `find_spec` (which only ever removes) also preserves the
at-most-one bound. -/
theorem finder_at_most_one (patch : Routine) (newId : Nat)
    (env : Option String) (self : Finder)
    (resolve : List Finder → String → Option ModuleSpec)
    (fullname : String) (s : State)
    (hpatch : ∀ t, ((patch t).state).metaPath = t.metaPath)
    (hinv : countTorch s.metaPath ≤ 1) :
    countTorch ((startup patch newId env s).1.state.metaPath) ≤ 1 ∧
    ((startup patch newId env s).1.state.metaPath ≠ s.metaPath →
      (startup patch newId env s).1.state.metaPath =
        Finder.torch newId :: s.metaPath ∧
      countTorch s.metaPath = 0 ∧ torch_loaded s = false) ∧
    countTorch ((find_spec self resolve fullname s).2.metaPath) ≤ 1 := by
  have hfs : countTorch ((find_spec self resolve fullname s).2.metaPath)
      ≤ 1 := by
    by_cases hf : fullname = "torch"
    · subst hf
      rw [find_spec_state_eq]
      exact le_trans (countTorch_removeFinder_le _ _) hinv
    · simpa [find_spec, hf] using hinv
  have hcases : (startup patch newId env s).1.state.metaPath = s.metaPath ∨
      ((startup patch newId env s).1.state.metaPath =
        Finder.torch newId :: s.metaPath ∧
       countTorch s.metaPath = 0 ∧ torch_loaded s = false) := by
    cases he : lovelyEnabled env with
    | false => left; simp [startup, he, PyResult.state]
    | true =>
      cases hl : torch_loaded s with
      | true =>
        left
        simp only [startup, he, hl, if_true]
        exact after_import_torch_metaPath patch s hpatch
      | false =>
        cases hany : s.metaPath.any Finder.isTorch with
        | false =>
          right
          refine ⟨?_, any_isTorch_false_iff.1 hany, rfl⟩
          simp [startup, he, hl, hany, PyResult.state]
        | true => left; simp [startup, he, hl, hany, PyResult.state]
  rcases hcases with hmp | ⟨hmp, hz, hl⟩
  · exact ⟨by rw [hmp]; exact hinv, fun hne => absurd hmp hne, hfs⟩
  · refine ⟨?_, fun _ => ⟨hmp, hz, hl⟩, hfs⟩
    rw [hmp, countTorch_cons, hz]
    simp [Finder.isTorch]

/-- Concrete instantiation of `finder_at_most_one`. -/
theorem finder_at_most_one_witness :
    countTorch ((startup patchFn 3 (some "1")
      stateEmpty).1.state.metaPath) ≤ 1 ∧
    countTorch ((find_spec (Finder.torch 0) resolveNone "torch"
      stateWithFinder).2.metaPath) ≤ 1 :=
  ⟨(finder_at_most_one patchFn 3 (some "1") (Finder.torch 0) resolveNone
      "torch" stateEmpty (fun t => rfl) (by decide)).1,
   (finder_at_most_one patchFn 3 (some "1") (Finder.torch 0) resolveNone
      "torch" stateWithFinder (fun t => rfl) (by decide)).2.2⟩
